import Mathlib

/-!
Shallow embedding of the automation engine of the repository
(src/error_handler.py, src/workflow.py, src/window_manager.py,
src/automation.py, src/config_manager.py, src/ui_detection.py).

Python functions are translated into total Lean functions.  Responses of
the external world (pyautogui, pygetwindow, psutil, cv2, the file system,
SMTP) are modelled as explicit data: per-action outcome fields and an
environment record.  An exception raised by Python code is modelled by the
constructor `PyResult.raised` carrying the exception class; a `try/except`
is a `match` on that constructor.  Floating point ratios are modelled as
exact rationals.
-/

namespace Automation

/-- Python exception classes that the embedded code can raise or catch. -/
inductive PyError where
  | nameError
  | valueError
  | attributeError
  | importError
  | otherError
deriving DecidableEq, Repr

/-- Result of running a piece of Python code: a returned value or a raised
exception. -/
inductive PyResult (α : Type) where
  | ok : α → PyResult α
  | raised : PyError → PyResult α
deriving DecidableEq, Repr

/-- Python truthiness of an optional string: `None` and the empty string
are falsy (used for `if action_policy:`-style guards in the source). -/
def py_truthy_str : Option String → Bool
  | none => false
  | some s => !s.isEmpty

/-- The retry-policy enumeration that src/error_handler.py refers to as
`RetryPolicy`.  The source never defines or imports this name anywhere in
the repository; the four values are the ones the resolution logic and the
design notes reference.  Because the name is undefined in the source,
evaluating it there raises `NameError` (see `retry_policy_ctor`). -/
inductive RetryPolicy where
  | retry
  | throw_error
  | rollback
  | go_back_one
deriving DecidableEq, Repr

/-- Evaluation of the expression `RetryPolicy(policy_string)` in
src/error_handler.py.  The name `RetryPolicy` is undefined in the module
(no definition and no import exists in the repository), so the evaluation
raises `NameError` before any constructor call happens, for every
argument string. -/
def retry_policy_ctor (_s : String) : PyResult RetryPolicy :=
  .raised .nameError

/-- One step of an objective, from the objective/action registry
(src/workflow.py).  The fields `dispatch_outcome` and `verify_outcome`
record what the external world answers when `_execute_action` and
`_verify_action_completion` run on this action in the modelled
environment: a returned boolean or a raised exception. -/
structure Action where
  atype : String
  retry_policy : Option String
  prerequisites : List String
  dispatch_outcome : PyResult Bool
  verify_outcome : PyResult Bool
deriving DecidableEq, Repr

/-- A configured objective (src/config_manager.py, src/workflow.py).
`supported` is `objective.get("supported", False)`; `reason` is the
`objective.get('reason', ...)` text used when reporting unsupported
objectives. -/
structure Objective where
  id : String
  name : String
  app : String
  supported : Bool
  retry_policy : Option String
  reason : String
  actions : List Action
deriving DecidableEq, Repr

/-- Email notification settings (settings.email_notifications in the
configuration, read by ErrorHandler.__init__). -/
structure EmailSettings where
  enabled : Bool
  developer_email : Option String
  user_email : Option String
deriving DecidableEq, Repr

/-- State of the ErrorHandler (src/error_handler.py, __init__): the retry
policies and email settings loaded from configuration.  `delivery_exc`
records whether the message-building/delivery code inside the `try` block
of `_notify_developer_support` raises on this run. -/
structure ErrorHandlerState where
  max_retries : Nat
  retry_delay : Nat
  default_policy : Option String
  email : EmailSettings
  delivery_exc : Bool
deriving DecidableEq, Repr

/-- ErrorHandler._notify_developer_support: returns False when
notifications are disabled, when no developer email is configured, or when
anything inside the `try` block raises (the exception is caught and
logged); returns True otherwise.  It is total: no exception escapes. -/
def notify_developer_support (es : EmailSettings) (delivery_exc : Bool) : Bool :=
  if es.enabled = false then false
  else
    match es.developer_email with
    | none => false
    | some _ => if delivery_exc then false else true

/-- ErrorHandler.handle_action_failure (src/error_handler.py lines 48-76).
Returns the boolean the source returns together with the number of
developer notifications dispatched during the call.  With
`retry_count < max_retries` it sleeps `retry_delay` and returns True
("should retry"); otherwise it dispatches exactly one developer
notification (whose delivery result is discarded) and returns False. -/
def handle_action_failure (eh : ErrorHandlerState) (retry_count : Nat) : Bool × Nat :=
  if retry_count < eh.max_retries then
    (true, 0)
  else
    let _sent := notify_developer_support eh.email eh.delivery_exc
    (false, 1)

/-- ErrorHandler.handle_objective_failure (src/error_handler.py lines
190-212): dispatches exactly one developer notification (result
discarded) and always returns False. -/
def handle_objective_failure (eh : ErrorHandlerState) : Bool × Nat :=
  let _sent := notify_developer_support eh.email eh.delivery_exc
  (false, 1)

/-- ErrorHandler.handle_unsupported_objectives (src/error_handler.py lines
214-239): builds the "name: reason" report list, notifies the user, and
always returns True (continue with supported objectives). -/
def handle_unsupported_objectives (objs : List Objective) : List String × Bool :=
  if objs.isEmpty then
    ([], true)
  else
    (objs.map (fun o => o.name ++ ": " ++ o.reason), true)

/-- ErrorHandler._determine_failure_policy (src/error_handler.py lines
78-111).  Three tiers: action override (guarded by Python truthiness),
objective override (same guard), configured default with fallback string
"throw_error".  Each tier evaluates `RetryPolicy(policy)` inside
`try ... except ValueError: pass`; only `ValueError` falls through to the
next tier, every other exception propagates. -/
def determine_failure_policy (eh : ErrorHandlerState) (action : Action)
    (objective : Objective) : PyResult RetryPolicy :=
  let tier3 : PyResult RetryPolicy :=
    match retry_policy_ctor (eh.default_policy.getD "throw_error") with
    | .raised .valueError => .ok .throw_error
    | r => r
  let tier2 : PyResult RetryPolicy :=
    if py_truthy_str objective.retry_policy then
      match retry_policy_ctor (objective.retry_policy.getD "") with
      | .raised .valueError => tier3
      | r => r
    else tier3
  if py_truthy_str action.retry_policy then
    match retry_policy_ctor (action.retry_policy.getD "") with
    | .raised .valueError => tier2
    | r => r
  else tier2

/-- Width and height of a window rectangle in pixels
(pygetwindow `window._rect`). -/
structure WinRect where
  width : Nat
  height : Nat
deriving DecidableEq, Repr

/-- Screen size in pixels (pyautogui.size()). -/
structure ScreenSize where
  width : Nat
  height : Nat
deriving DecidableEq, Repr

/-- WindowManager.verify_window_maximized (src/window_manager.py lines
204-246).  With no current window it returns False at once.  Otherwise the
pixel ratios are compared against 0.8 (modelled exactly in the rationals),
the window counts as maximized when both ratios reach the threshold, and
the template verification (`templates_ok`, the outcome of
`_verify_app_ready_with_templates`) can only add a log line: the function
returns True whenever the geometry passes, whether or not the templates
are found. -/
def verify_window_maximized (current_window : Option WinRect)
    (screen : ScreenSize) (templates_ok : Bool) : Bool :=
  match current_window with
  | none => false
  | some w =>
    let width_ratio : ℚ := (w.width : ℚ) / (screen.width : ℚ)
    let height_ratio : ℚ := (w.height : ℚ) / (screen.height : ℚ)
    let is_maximized : Bool :=
      decide (width_ratio ≥ 4/5) && decide (height_ratio ≥ 4/5)
    if is_maximized && templates_ok then true
    else if is_maximized then true
    else false

/-- Initial world state observed by WindowManager.launch_app: the
configured app name and path, the windows matching the app title
(pygetwindow query), whether a process of the app name is running
(main.is_app_running_standalone), whether spawning raises, and the windows
found by `_verify_app_launched` after a spawn.  Window handles are opaque
naturals. -/
structure LaunchState where
  app_name : Option String
  app_path : Option String
  existing_windows : List Nat
  process_running : Bool
  launch_raises : Bool
  windows_after_launch : List Nat
deriving DecidableEq, Repr

/-- Outcome of WindowManager.launch_app: the returned boolean, the number
of `subprocess.Popen` invocations, and the window handle stored in
`self.current_window` (if any). -/
structure LaunchResult where
  ok : Bool
  spawned : Nat
  current_window : Option Nat
deriving DecidableEq, Repr

/-- WindowManager.launch_app (src/window_manager.py lines 69-112): bail
out if no app is configured; attach to the first existing window if one
matches the title; otherwise return True without spawning when a process
of the app name is already running; only then spawn, wait, and re-query
for a window. -/
def launch_app (st : LaunchState) (_max_retries : Nat) : LaunchResult :=
  if !(py_truthy_str st.app_name) || !(py_truthy_str st.app_path) then
    ⟨false, 0, none⟩
  else
    match st.existing_windows with
    | w :: _ => ⟨true, 0, some w⟩
    | [] =>
      if st.process_running then ⟨true, 0, none⟩
      else if st.launch_raises then ⟨false, 1, none⟩
      else
        match st.windows_after_launch with
        | [] => ⟨false, 1, none⟩
        | w :: _ => ⟨true, 1, some w⟩

/-- Ambient environment of the workflow executor: whether the
`from window_manager import WindowManager` statement inside
`_check_prerequisites` succeeds, the screen size and template outcome fed
to `verify_window_maximized`, and the function-dispatcher responses:
`builtin id = none` models `id not in function_dispatcher`, and
`builtin id = some r` models the dispatched built-in returning or
raising `r`. -/
structure Env where
  import_window_manager_ok : Bool
  screen : ScreenSize
  templates_ok : Bool
  builtin : String → Option (PyResult Bool)

/-- WorkflowExecutor._is_correct_screen_open (src/workflow.py lines
306-315): a placeholder that always returns True. -/
def is_correct_screen_open : Bool := true

/-- WorkflowExecutor._check_prerequisites (src/workflow.py lines 155-186).
For `app_maximized` a fresh WindowManager is constructed (its
`current_window` is None) and its `verify_window_maximized` decides the
check; an exception while importing the module is caught and the check is
skipped (non-blocking).  `screen_open` uses the placeholder
`_is_correct_screen_open`; unknown prerequisite names are ignored. -/
def check_prerequisites (env : Env) (a : Action) : Bool :=
  a.prerequisites.all fun p =>
    if p = "app_maximized" then
      if env.import_window_manager_ok then
        verify_window_maximized none env.screen env.templates_ok
      else
        true
    else if p = "screen_open" then
      is_correct_screen_open
    else
      true

/-- Observable trace of one `_execute_objective_actions` call: the boolean
it returns, how many actions `_execute_action` was invoked on, how many
developer notifications were dispatched, and how many times the failure
handler `handle_action_failure` was consulted. -/
structure ActTrace where
  result : Bool
  dispatched : Nat
  notifs : Nat
  policy_consults : Nat
deriving DecidableEq, Repr

/-- WorkflowExecutor._execute_objective_actions (src/workflow.py lines
108-153).  Per action: a failed prerequisite check returns False at once;
a dispatch returning False or raising hands control to
`handle_action_failure` (with the default `retry_count = 0`) and returns
its boolean as the result of the whole call; a failed post-condition
verification returns False at once, and a raising one goes through
`handle_action_failure` via the surrounding `except`; otherwise the
action is appended to the history and the loop continues.  An empty or
fully consumed list returns True. -/
def execute_objective_actions (env : Env) (eh : ErrorHandlerState) :
    List Action → ActTrace
  | [] => ⟨true, 0, 0, 0⟩
  | a :: rest =>
    if check_prerequisites env a then
      match a.dispatch_outcome with
      | .ok true =>
        match a.verify_outcome with
        | .ok true =>
          let t := execute_objective_actions env eh rest
          ⟨t.result, t.dispatched + 1, t.notifs, t.policy_consults⟩
        | .ok false => ⟨false, 1, 0, 0⟩
        | .raised _ =>
          let r := handle_action_failure eh 0
          ⟨r.1, 1, r.2, 1⟩
      | .ok false =>
        let r := handle_action_failure eh 0
        ⟨r.1, 1, r.2, 1⟩
      | .raised _ =>
        let r := handle_action_failure eh 0
        ⟨r.1, 1, r.2, 1⟩
    else
      ⟨false, 0, 0, 0⟩

/-- WorkflowExecutor.execute_objective (src/workflow.py lines 60-106).
An unsupported objective takes the branch that calls the non-existent
method `self.error_handler.send_notification`, raising AttributeError.
A supported objective whose id is in the function dispatcher invokes the
built-in first: only a True return short-circuits; a False return or a
raised exception falls back to the objective's declarative action list,
as does an id with no built-in. -/
def execute_objective (env : Env) (eh : ErrorHandlerState) (obj : Objective) :
    PyResult ActTrace :=
  if obj.supported then
    match env.builtin obj.id with
    | some (.ok true) => .ok ⟨true, 0, 0, 0⟩
    | some (.ok false) => .ok (execute_objective_actions env eh obj.actions)
    | some (.raised _) => .ok (execute_objective_actions env eh obj.actions)
    | none => .ok (execute_objective_actions env eh obj.actions)
  else
    .raised .attributeError

/-- Observable trace of SimpleAppAutomation.execute_objectives: the
objectives on which `execute_objective` was invoked, the total number of
developer notifications, and the returned boolean. -/
structure RunTrace where
  executed : List Objective
  notifs : Nat
  result : Bool
deriving DecidableEq, Repr

/-- The per-objective loop of SimpleAppAutomation.execute_objectives
(src/automation.py lines 118-131): each supported objective runs through
`execute_objective`; on failure `handle_objective_failure` is consulted
and, since it returns False, the loop returns False at once; on success
the loop continues. -/
def execute_supported (env : Env) (eh : ErrorHandlerState) :
    List Objective → PyResult RunTrace
  | [] => .ok ⟨[], 0, true⟩
  | obj :: rest =>
    match execute_objective env eh obj with
    | .raised e => .raised e
    | .ok t =>
      if t.result then
        match execute_supported env eh rest with
        | .raised e => .raised e
        | .ok rt => .ok ⟨obj :: rt.executed, t.notifs + rt.notifs, rt.result⟩
      else
        let h := handle_objective_failure eh
        if h.1 then
          match execute_supported env eh rest with
          | .raised e => .raised e
          | .ok rt => .ok ⟨obj :: rt.executed, t.notifs + h.2 + rt.notifs, rt.result⟩
        else
          .ok ⟨[obj], t.notifs + h.2, false⟩

/-- The id filter at the head of ConfigManager.get_objectives
(src/config_manager.py lines 109-110): `if objective_ids:` keeps only the
listed ids, and by Python truthiness both `None` and the empty list leave
the objective list untouched. -/
def filtered_objectives (objectives : List Objective)
    (objective_ids : Option (List String)) : List Objective :=
  match objective_ids with
  | none => objectives
  | some l => if l.isEmpty then objectives else objectives.filter (fun o => l.contains o.id)

/-- ConfigManager.get_objectives (src/config_manager.py lines 88-121):
after the id filter, partition the objectives by
`objective.get("supported", False)` into (supported, unsupported),
preserving order. -/
def get_objectives (objectives : List Objective)
    (objective_ids : Option (List String)) : List Objective × List Objective :=
  let objs := filtered_objectives objectives objective_ids
  (objs.filter (fun o => o.supported), objs.filter (fun o => !o.supported))

/-- SimpleAppAutomation.execute_objectives (src/automation.py lines
88-131): partition the configured objectives, report the unsupported ones
(`handle_unsupported_objectives`, whose True return means the run goes
on), return True when no supported objective remains, and otherwise run
the supported ones in order. -/
def execute_objectives (env : Env) (eh : ErrorHandlerState)
    (objectives : List Objective) (objective_ids : Option (List String)) :
    PyResult RunTrace :=
  let pair := get_objectives objectives objective_ids
  let report := handle_unsupported_objectives pair.2
  if report.2 = false then .ok ⟨[], 0, false⟩
  else if pair.1.isEmpty then .ok ⟨[], 0, true⟩
  else execute_supported env eh pair.1

/-- Environment observed by UIDetector.find_template: which paths exist on
disk, whether `take_screenshot` returns a path (it returns the empty
string on failure, modelled as `none`), whether `cv2.imread` loads both
images, whether anything inside the `try` block raises, and the template
matching response (best score, its location, template size). -/
structure DetectEnv where
  path_exists : String → Bool
  screenshot_path : Option String
  images_load : Bool
  internal_exc : Bool
  match_val : ℚ
  match_loc : Nat × Nat
  template_w : Nat
  template_h : Nat

/-- UIDetector.find_template (src/ui_detection.py lines 52-115).  A
missing template file returns None before the `try` block; inside the
block every failure path — screenshot failure, image-load failure, a
score below the threshold, or any raised exception (caught by the
blanket `except`) — returns None; a match at or above the threshold
returns the centre of the matched region, shifted by the region offset
when a search region was given. -/
def find_template (env : DetectEnv) (template_path : String) (threshold : ℚ)
    (region : Option (Nat × Nat × Nat × Nat)) : Option (Nat × Nat) :=
  if env.path_exists template_path = false then none
  else if env.internal_exc then none
  else
    match env.screenshot_path with
    | none => none
    | some _ =>
      if !env.images_load then none
      else if env.match_val ≥ threshold then
        let cx := env.match_loc.1 + env.template_w / 2
        let cy := env.match_loc.2 + env.template_h / 2
        match region with
        | some (rx, ry, _, _) => some (cx + rx, cy + ry)
        | none => some (cx, cy)
      else none

/-! ## Sample inputs used by the per-claim theorems -/

/-- Objective action whose dispatch fails (returns False) in the modelled
environment, with passing prerequisites and no raised exception. -/
def c1_action : Action := ⟨"type_text", none, [], .ok false, .ok true⟩

/-- Environment for the C1 evaluation: the window-manager import works,
a 1920x1080 screen, and no built-in dispatcher entries. -/
def c1_env : Env := ⟨true, ⟨1920, 1080⟩, true, fun _ => none⟩

/-- Error-handler state with the source defaults: max_retries 3,
retry_delay 2, no configured default policy, notifications disabled. -/
def c1_eh : ErrorHandlerState := ⟨3, 2, none, ⟨false, none, none⟩, false⟩

/-- Objective action whose dispatch fails, for the C3 run. -/
def c3_fail_action : Action := ⟨"click_element", none, [], .ok false, .ok true⟩

/-- First objective of the C3 run; its only action fails terminally. -/
def c3_obj_fail : Objective :=
  ⟨"obj1", "First objective", "Notepad", true, none, "", [c3_fail_action]⟩

/-- Second objective of the C3 run; it has no actions and would succeed
trivially if it were ever attempted. -/
def c3_obj_ok : Objective :=
  ⟨"obj2", "Second objective", "Notepad", true, none, "", []⟩

/-- Environment for the C3 run: no built-in dispatcher entries. -/
def c3_env : Env := ⟨true, ⟨1920, 1080⟩, true, fun _ => none⟩

/-- Error-handler state for the C3 run: max_retries 0, so the action
failure is terminal. -/
def c3_eh : ErrorHandlerState := ⟨0, 2, none, ⟨false, none, none⟩, false⟩

/-- First action of the C4 scenario: dispatch and verification succeed. -/
def c4_a1 : Action := ⟨"type_text", none, [], .ok true, .ok true⟩

/-- Second action of the C4 scenario: dispatch fails. -/
def c4_a2 : Action := ⟨"click_element", none, [], .ok false, .ok true⟩

/-- Third action of the C4 scenario: it would succeed, but must never be
dispatched. -/
def c4_a3 : Action := ⟨"key_press", none, [], .ok true, .ok true⟩

/-- Environment for the C4 scenario. -/
def c4_env : Env := ⟨true, ⟨1920, 1080⟩, true, fun _ => none⟩

/-- Error-handler state for the C4 scenario: max_retries 0, notifications
enabled with a developer address, and a delivery failure inside the
notification call. -/
def c4_eh : ErrorHandlerState := ⟨0, 2, none, ⟨true, some "dev", none⟩, true⟩

/-! ## Claim theorems -/

/-- C1: at the failing input — one action whose dispatch returns False,
with the default retry budget (max_retries = 3) not exhausted — the
action-list execution returns True: the objective is reported successful
although its only action failed, was dispatched exactly once, and was
never re-attempted; the failure handler was consulted once and answered
"should retry" (no notification), but the caller returns that answer as
objective success instead of retrying. -/
theorem c1_failed_action_reported_success :
    execute_objective_actions c1_env c1_eh [c1_action] = ⟨true, 1, 0, 1⟩ := by
  rfl

/-- C2: the policy-resolution function never returns a policy: for every
error-handler state, failed action and objective, `_determine_failure_policy`
raises NameError, because the name `RetryPolicy` is undefined in the source
and the `except ValueError` clauses of the three resolution tiers do not
catch a NameError. -/
theorem c2_policy_resolution_raises_name_error
    (eh : ErrorHandlerState) (a : Action) (o : Objective) :
    determine_failure_policy eh a o = .raised .nameError := by
  simp only [determine_failure_policy, retry_policy_ctor]
  cases py_truthy_str a.retry_policy <;> cases py_truthy_str o.retry_policy <;> simp

/-- C5: for every window state with a current window, screen size and
content-template outcome, geometric verification returns true exactly when
the window width is at least 80 percent of the screen width and the window
height is at least 80 percent of the screen height; the result does not
depend on the content-template outcome, whose failure is only downgraded
to a warning. -/
theorem c5_verify_iff_geometry (w : WinRect) (scr : ScreenSize) (tmpl : Bool) :
    verify_window_maximized (some w) scr tmpl =
      (decide ((w.width : ℚ) / (scr.width : ℚ) ≥ 4/5) &&
       decide ((w.height : ℚ) / (scr.height : ℚ) ≥ 4/5)) := by
  simp only [verify_window_maximized]
  cases h1 : decide ((w.width : ℚ) / (scr.width : ℚ) ≥ 4/5) <;>
    cases h2 : decide ((w.height : ℚ) / (scr.height : ℚ) ≥ 4/5) <;>
      cases tmpl <;> simp [h1, h2]

/-- C3, counterexample: a run with two supported objectives in which the
first fails terminally returns False with only the first objective ever
passed to execution — the second objective is never attempted, although
the claim says a per-objective terminal failure never prevents later
objectives from being attempted. -/
theorem c3_counterexample_run_stops :
    execute_objectives c3_env c3_eh [c3_obj_fail, c3_obj_ok] none =
      .ok ⟨[c3_obj_fail], 2, false⟩ ∧ c3_obj_ok ≠ c3_obj_fail := by
  exact ⟨rfl, by decide⟩

/-- C3, amended: when an objective terminally fails, the run stops that
objective, records it as failed (the loop result is False) and dispatches
one objective-level notification, but then stops the whole run — the
remaining objectives are not attempted, because `handle_objective_failure`
always returns False and `execute_objectives` returns False on that
answer. -/
theorem c3_objective_failure_stops_run (env : Env) (eh : ErrorHandlerState)
    (o : Objective) (rest : List Objective) (t : ActTrace)
    (hexec : execute_objective env eh o = .ok t) (hfail : t.result = false) :
    execute_supported env eh (o :: rest) = .ok ⟨[o], t.notifs + 1, false⟩ := by
  simp only [execute_supported, hexec, hfail, handle_objective_failure,
    Bool.false_eq_true, if_false]

/-- C3, witness: the amended theorem applied to the concrete two-objective
run. -/
theorem c3_objective_failure_stops_run_witness :
    execute_supported c3_env c3_eh [c3_obj_fail, c3_obj_ok] =
      .ok ⟨[c3_obj_fail], 2, false⟩ :=
  c3_objective_failure_stops_run c3_env c3_eh c3_obj_fail [c3_obj_ok]
    ⟨false, 1, 1, 1⟩ rfl rfl

/-- C4: with max_retries = 0, a failed second action of three makes the
action-list execution return False after exactly one developer
notification and exactly one failure-handler consultation, with the third
action never dispatched; the trace is the same for every email setting and
every delivery outcome, so a notification delivery failure never escalates
into the automation flow; and the objective-level terminal handler itself
dispatches exactly one notification. -/
theorem c4_terminal_failure_single_notification
    (env : Env) (eh : ErrorHandlerState) (a1 a2 a3 : Action)
    (hmax : eh.max_retries = 0)
    (hp1 : check_prerequisites env a1 = true)
    (hd1 : a1.dispatch_outcome = .ok true)
    (hv1 : a1.verify_outcome = .ok true)
    (hp2 : check_prerequisites env a2 = true)
    (hd2 : a2.dispatch_outcome = .ok false) :
    execute_objective_actions env eh [a1, a2, a3] = ⟨false, 2, 1, 1⟩ ∧
      (handle_objective_failure eh).2 = 1 := by
  constructor
  · simp only [execute_objective_actions, hp1, hd1, hv1, hp2, hd2, if_true]
    simp [handle_action_failure, hmax]
  · rfl

/-- C4, witness: the scenario at a concrete environment in which
notifications are enabled but delivery fails. -/
theorem c4_terminal_failure_single_notification_witness :
    execute_objective_actions c4_env c4_eh [c4_a1, c4_a2, c4_a3] =
      ⟨false, 2, 1, 1⟩ ∧ (handle_objective_failure c4_eh).2 = 1 :=
  c4_terminal_failure_single_notification c4_env c4_eh c4_a1 c4_a2 c4_a3
    rfl rfl rfl rfl rfl rfl

/-- Initial state for the C6 witness: an app is configured and one window
matching its title already exists. -/
def c6_state : LaunchState := ⟨some "Notepad", some "notepad.exe", [7], false, false, []⟩

/-- Environment for the C7 witness: the built-in for notepad_basic_typing
returns False, every other id has no built-in. -/
def c7_env : Env :=
  ⟨true, ⟨1920, 1080⟩, true,
    fun i => if i = "notepad_basic_typing" then some (.ok false) else none⟩

/-- Error-handler state for the C7 witness (source defaults). -/
def c7_eh : ErrorHandlerState := ⟨3, 2, none, ⟨false, none, none⟩, false⟩

/-- Objective for the C7 witness: supported, with a built-in id and a
declarative action list to fall back to. -/
def c7_obj : Objective :=
  ⟨"notepad_basic_typing", "Notepad basic typing", "Notepad", true, none, "",
    [⟨"type_text", none, [], .ok true, .ok true⟩]⟩

/-- Action for the C9 witness: its prerequisite list contains
app_maximized. -/
def c9_action : Action := ⟨"type_text", none, ["app_maximized"], .ok true, .ok true⟩

/-- Environment for the C9 witness: the window-manager import succeeds. -/
def c9_env : Env := ⟨true, ⟨1920, 1080⟩, true, fun _ => none⟩

/-- Error-handler state for the C9 witness (source defaults). -/
def c9_eh : ErrorHandlerState := ⟨3, 2, none, ⟨false, none, none⟩, false⟩

/-- Detection environment for the C10 witness: no template path exists on
disk. -/
def c10_env : DetectEnv :=
  ⟨fun _ => false, some "screen.png", true, false, 9/10, (10, 20), 40, 30⟩

/-- Unsupported objective for the C8 witness. -/
def c8_obj_unsup : Objective :=
  ⟨"u1", "Unsupported objective", "Notepad", false, none, "not implemented", []⟩

/-- Environment for the C8 witness. -/
def c8_env : Env := ⟨true, ⟨1920, 1080⟩, true, fun _ => none⟩

/-- Error-handler state for the C8 witness (source defaults). -/
def c8_eh : ErrorHandlerState := ⟨3, 2, none, ⟨false, none, none⟩, false⟩

/-! ## Helper lemmas -/

/-- The unsupported-objective handler always answers "continue". -/
lemma handle_unsupported_objectives_snd (l : List Objective) :
    (handle_unsupported_objectives l).2 = true := by
  by_cases h : l.isEmpty <;> simp [handle_unsupported_objectives, h]

/-- Every objective recorded as executed by the supported-objective loop
comes from its input list. -/
lemma execute_supported_executed_subset (env : Env) (eh : ErrorHandlerState) :
    ∀ (l : List Objective) (rt : RunTrace),
      execute_supported env eh l = .ok rt → ∀ o ∈ rt.executed, o ∈ l := by
  intro l
  induction l with
  | nil =>
    intro rt h o ho
    simp only [execute_supported] at h
    cases h
    simp at ho
  | cons a l ih =>
    intro rt h o ho
    simp only [execute_supported] at h
    cases hex : execute_objective env eh a with
    | raised e => rw [hex] at h; simp at h
    | ok t =>
      simp only [hex] at h
      by_cases htr : t.result = true
      · rw [if_pos htr] at h
        cases hrec : execute_supported env eh l with
        | raised e => rw [hrec] at h; simp at h
        | ok rt2 =>
          rw [hrec] at h
          cases h
          rcases List.mem_cons.mp ho with h1 | h2
          · exact h1 ▸ List.mem_cons_self a l
          · exact List.mem_cons_of_mem a (ih rt2 hrec o h2)
      · rw [if_neg htr] at h
        have hh : handle_objective_failure eh = (false, 1) := rfl
        rw [hh] at h
        simp only [Bool.false_eq_true, if_false] at h
        cases h
        simp at ho
        exact ho ▸ List.mem_cons_self a l

/-- C6: for every initial state, when a window matching the target's
title exists or a process of the target's name is running, launch_app
attaches (returns True) without any spawn; and conversely any spawn can
only happen when neither a matching window nor a matching process
exists. -/
theorem c6_idempotent_attach (st : LaunchState) (mr : Nat) :
    (py_truthy_str st.app_name = true → py_truthy_str st.app_path = true →
      (st.existing_windows ≠ [] ∨ st.process_running = true) →
      (launch_app st mr).ok = true ∧ (launch_app st mr).spawned = 0) ∧
    ((launch_app st mr).spawned ≠ 0 →
      st.existing_windows = [] ∧ st.process_running = false) := by
  constructor
  · intro hn hp hex
    cases hw : st.existing_windows with
    | cons w ws => simp [launch_app, hn, hp, hw]
    | nil =>
      have hr : st.process_running = true := by
        rcases hex with h | h
        · exact absurd hw h
        · exact h
      simp [launch_app, hn, hp, hw, hr]
  · intro hsp
    cases hw : st.existing_windows with
    | cons w ws =>
      exact absurd (by simp only [launch_app, hw]; split <;> rfl) hsp
    | nil =>
      refine ⟨rfl, ?_⟩
      cases hpr : st.process_running
      · rfl
      · refine absurd ?_ hsp
        simp only [launch_app, hw, hpr]
        split
        · rfl
        · simp

/-- C6, witness: a state with an existing matching window attaches without
spawning. -/
theorem c6_idempotent_attach_witness :
    (launch_app c6_state 3).ok = true ∧ (launch_app c6_state 3).spawned = 0 :=
  (c6_idempotent_attach c6_state 3).1 rfl rfl (Or.inl (by decide))

/-- C7: for every supported objective whose id has a built-in dispatch
implementation, if the built-in returns False or raises, the engine falls
back to the objective's declarative action list: the objective's result is
exactly the result of executing those actions, so it is considered failed
only when the fallback also fails. -/
theorem c7_builtin_failure_falls_back (env : Env) (eh : ErrorHandlerState)
    (obj : Objective) (r : PyResult Bool)
    (hsup : obj.supported = true)
    (hb : env.builtin obj.id = some r)
    (hr : r = .ok false ∨ ∃ e, r = .raised e) :
    execute_objective env eh obj =
      .ok (execute_objective_actions env eh obj.actions) := by
  rcases hr with h | ⟨e, h⟩ <;> subst h <;> simp [execute_objective, hsup, hb]

/-- C7, witness: the fallback equation at a concrete objective whose
built-in returns False. -/
theorem c7_builtin_failure_falls_back_witness :
    execute_objective c7_env c7_eh c7_obj =
      .ok (execute_objective_actions c7_env c7_eh c7_obj.actions) :=
  c7_builtin_failure_falls_back c7_env c7_eh c7_obj (.ok false) rfl rfl (Or.inl rfl)

/-- C8: the id-filtered objectives are partitioned by the supported flag
(every supported entry carries the flag, every unsupported entry lacks
it, and the number of reported unsupported objectives equals the number
of filtered objectives without the flag); execution is only ever invoked
on objectives carrying the flag; and when no supported objective exists
the run returns True, so unsupported objectives alone never fail it. -/
theorem c8_unsupported_partition (env : Env) (eh : ErrorHandlerState)
    (objectives : List Objective) (ids : Option (List String)) :
    (∀ o ∈ (get_objectives objectives ids).1, o.supported = true) ∧
    (∀ o ∈ (get_objectives objectives ids).2, o.supported = false) ∧
    (get_objectives objectives ids).2.length =
      (filtered_objectives objectives ids).countP (fun o => !o.supported) ∧
    (∀ rt, execute_objectives env eh objectives ids = .ok rt →
      ∀ o ∈ rt.executed, o.supported = true) ∧
    ((get_objectives objectives ids).1 = [] →
      execute_objectives env eh objectives ids = .ok ⟨[], 0, true⟩) := by
  refine ⟨?_, ?_, ?_, ?_, ?_⟩
  · intro o ho
    exact (List.mem_filter.mp ho).2
  · intro o ho
    have := (List.mem_filter.mp ho).2
    simpa using this
  · exact Eq.symm (List.countP_eq_length_filter _ _)
  · intro rt h o ho
    simp only [execute_objectives, handle_unsupported_objectives_snd] at h
    by_cases hemp : (get_objectives objectives ids).1.isEmpty
    · rw [if_pos hemp] at h
      simp only [Bool.true_eq_false, if_false] at h
      cases h
      simp at ho
    · rw [if_neg hemp] at h
      simp only [Bool.true_eq_false, if_false] at h
      have hmem := execute_supported_executed_subset env eh
        (get_objectives objectives ids).1 rt h o ho
      exact (List.mem_filter.mp hmem).2
  · intro hnil
    simp [execute_objectives, handle_unsupported_objectives_snd, hnil]

/-- C8, witness: a run whose only objective is unsupported executes
nothing and returns True. -/
theorem c8_unsupported_partition_witness :
    execute_objectives c8_env c8_eh [c8_obj_unsup] none = .ok ⟨[], 0, true⟩ :=
  (c8_unsupported_partition c8_env c8_eh [c8_obj_unsup] none).2.2.2.2 rfl

/-- C9: for every action whose prerequisite list contains app_maximized,
when the prerequisite check runs without raising (importing the
window-manager module succeeds), the freshly constructed controller tracks no current
window, so its geometric verification returns False, the prerequisite
check fails, and the action-list execution returns failure directly:
nothing is dispatched, no notification is sent and the failure policy
engine is never consulted. -/
theorem c9_app_maximized_prereq_fails (env : Env) (eh : ErrorHandlerState)
    (a : Action) (rest : List Action)
    (himp : env.import_window_manager_ok = true)
    (hpre : "app_maximized" ∈ a.prerequisites) :
    verify_window_maximized none env.screen env.templates_ok = false ∧
    check_prerequisites env a = false ∧
    execute_objective_actions env eh (a :: rest) = ⟨false, 0, 0, 0⟩ := by
  have hv : verify_window_maximized none env.screen env.templates_ok = false := rfl
  have hc : check_prerequisites env a = false := by
    cases hall : check_prerequisites env a
    · rfl
    · exfalso
      have h2 := List.all_eq_true.mp hall "app_maximized" hpre
      rw [if_pos rfl, himp] at h2
      simp only [if_true, hv] at h2
      exact Bool.false_ne_true h2
  refine ⟨hv, hc, ?_⟩
  simp [execute_objective_actions, hc]

/-- C9, witness: the three conclusions at a concrete action whose only
prerequisite is app_maximized. -/
theorem c9_app_maximized_prereq_fails_witness :
    verify_window_maximized none c9_env.screen c9_env.templates_ok = false ∧
    check_prerequisites c9_env c9_action = false ∧
    execute_objective_actions c9_env c9_eh [c9_action] = ⟨false, 0, 0, 0⟩ :=
  c9_app_maximized_prereq_fails c9_env c9_eh c9_action [] rfl (by decide)

/-- C10: find_template is total at its public interface — for every
environment, a template path that does not exist on disk yields None, and
an internal error during capture or matching (any exception inside the
try block) also yields None; no input makes it raise. -/
theorem c10_find_template_total (env : DetectEnv) (p : String) (t : ℚ)
    (region : Option (Nat × Nat × Nat × Nat)) :
    (env.path_exists p = false → find_template env p t region = none) ∧
    (env.internal_exc = true → find_template env p t region = none) := by
  constructor
  · intro h
    simp [find_template, h]
  · intro h
    simp [find_template, h]

/-- C10, witness: a missing template path yields None. -/
theorem c10_find_template_total_witness :
    find_template c10_env "templates/missing.png" (8/10) none = none :=
  (c10_find_template_total c10_env "templates/missing.png" (8/10) none).1 rfl

end Automation
